import Mathlib

/-!
Shallow embedding of the Traefik annotation codec from
`src/services/ingress.service.ts` (class `IngressService`, private methods
`buildTraefikAnnotations` and `parseTraefikConfig`), together with the input
types from `src/types/ingress.types.ts` (`TraefikConfig`) and
`src/validators/ingress.validator.ts` (`createIngressSchema`).

Modelling choices:
- A JavaScript `Record<string, string>` is modelled as a function
  `String → Option String` (`AnnotationMap`); object spread `{...a, ...b}`
  is pointwise right-biased merge, property assignment is pointwise update.
- A JavaScript `number` reaching this codec is either an integer (the zod
  schema validates `priority` with `z.number().int()` on encode) or `NaN`
  (produced by `parseInt` on decode); it is modelled as `JsNum`.
  Integer values appearing here are small, so exact `Int` arithmetic agrees
  with JS float arithmetic on them.
- JS string truthiness (`if (s)`) is: present and not the empty string.
- `Array.prototype.join(",")` and `String.prototype.split(",")` are modelled
  character-list-wise by `joinChars` / `splitChars`.
-/

namespace IngressCodec

/-- A JavaScript number as it occurs in this codec: an exact integer, or NaN
(the result of `parseInt` on a non-numeric string). -/
inductive JsNum where
  | nan : JsNum
  | int : Int → JsNum
deriving DecidableEq

/-- `String(n)` for a `JsNum`: JS prints integers in decimal and NaN as
`"NaN"`. -/
def JsNum.toStr : JsNum → String
  | .nan => "NaN"
  | .int n => toString n

/-- `TraefikConfig` from `src/types/ingress.types.ts`: six optional fields.
All fields default to unset. -/
structure TraefikConfig where
  entryPoints : Option (List String) := none
  middlewares : Option (List String) := none
  certResolver : Option String := none
  priority : Option JsNum := none
  sticky : Option Bool := none
  passHostHeader : Option Bool := none
deriving DecidableEq

/-- `Record<string, string>`: a finite map modelled extensionally. -/
def AnnotationMap : Type := String → Option String

/-- The empty annotation record `{}`. -/
def emptyAnn : AnnotationMap := fun _ => none

/-- Property assignment `m[k] = v`. -/
def annInsert (m : AnnotationMap) (k v : String) : AnnotationMap :=
  fun q => if q = k then some v else m q

/-- Removing key `k` (used to state "as if the key were absent"). -/
def annErase (m : AnnotationMap) (k : String) : AnnotationMap :=
  fun q => if q = k then none else m q

/-- Object spread `{ ...m1, ...m2 }`: keys of `m2` win. -/
def annMerge (m1 m2 : AnnotationMap) : AnnotationMap :=
  fun q => match m2 q with
    | some v => some v
    | none => m1 q

/-- JS string truthiness of a possibly-absent string value. -/
def truthyStr : Option String → Bool
  | some s => s != ""
  | none => false

/-! ### The annotation keys (bit-exact wire contract) -/

def ingressClassKey : String := "kubernetes.io/ingress.class"
def entryPointsKey : String := "traefik.ingress.kubernetes.io/router.entrypoints"
def middlewaresKey : String := "traefik.ingress.kubernetes.io/router.middlewares"
def certResolverKey : String := "traefik.ingress.kubernetes.io/router.tls.certresolver"
def tlsKey : String := "traefik.ingress.kubernetes.io/router.tls"
def priorityKey : String := "traefik.ingress.kubernetes.io/router.priority"
def stickyKey : String := "traefik.ingress.kubernetes.io/service.sticky.cookie"
def stickyNameKey : String := "traefik.ingress.kubernetes.io/service.sticky.cookie.name"
def passHostHeaderKey : String := "traefik.ingress.kubernetes.io/service.passhostheader"

/-- The keys the encoder can overlay over the user annotations (the derived
Traefik keys, i.e. every key of the table in the spec other than the fixed
ingress-class key). -/
def derivedKeys : List String :=
  [entryPointsKey, middlewaresKey, certResolverKey, tlsKey, priorityKey,
   stickyKey, stickyNameKey, passHostHeaderKey]

/-! ### `join(",")` and `split(",")` -/

/-- `Array.prototype.join(",")` on character lists: `[] ↦ ""`,
`[x] ↦ x`, `x :: xs ↦ x ++ "," ++ join xs`. -/
def joinChars : List (List Char) → List Char
  | [] => []
  | [x] => x
  | x :: xs => x ++ ',' :: joinChars xs

/-- `String.prototype.split(",")` on character lists: always returns a
non-empty list; `"" ↦ [""]`. -/
def splitChars : List Char → List (List Char)
  | [] => [[]]
  | c :: cs =>
    if c = ',' then [] :: splitChars cs
    else
      match splitChars cs with
      | [] => [[c]]
      | h :: t => (c :: h) :: t

/-- `l.join(",")` for strings. -/
def joinComma (l : List String) : String :=
  ⟨joinChars (l.map String.data)⟩

/-- `s.split(",")` for strings. -/
def splitComma (s : String) : List String :=
  (splitChars s.data).map (fun cs => ⟨cs⟩)

/-! ### `parseInt(s, 10)` -/

/-- The whitespace characters `parseInt` skips at the front of its input
(JS StrWhiteSpace: space, tab, LF, VT, FF, CR, NBSP, line/paragraph
separators, BOM). -/
def isJsSpace (c : Char) : Bool :=
  c = ' ' || c = '\t' || c = '\n' || c = '\x0b' || c = '\x0c' || c = '\r' ||
  c = '\u00A0' || c = '\u2028' || c = '\u2029' || c = '\uFEFF'

/-- Numeric value of a digit run. -/
def digitsToNat (ds : List Char) : Nat :=
  ds.foldl (fun acc c => acc * 10 + (c.toNat - '0'.toNat)) 0

/-- `parseInt(s, 10)`: skip leading whitespace, read an optional sign, then
the longest prefix of decimal digits; no digits at all gives `NaN`. -/
def parseIntJS (s : String) : JsNum :=
  let cs := s.data.dropWhile isJsSpace
  match cs with
  | '-' :: rest =>
    let ds := rest.takeWhile Char.isDigit
    if ds = [] then .nan else .int (-(digitsToNat ds : Int))
  | '+' :: rest =>
    let ds := rest.takeWhile Char.isDigit
    if ds = [] then .nan else .int (digitsToNat ds : Int)
  | _ =>
    let ds := cs.takeWhile Char.isDigit
    if ds = [] then .nan else .int (digitsToNat ds : Int)

/-! ### Encoder (`buildTraefikAnnotations`, ingress.service.ts lines 98–153)

The source builds
`const annotations = { "kubernetes.io/ingress.class": "traefik", ...input.annotations }`
and then, when `input.traefik` is present, performs the guarded assignments
in source order. Each guarded assignment is one `add*` step below. -/

/-- Lines 110–114: `if (traefik.entryPoints?.length)` — optional chaining
makes the guard falsy when the field is absent or the array empty. -/
def addEntryPoints (t : TraefikConfig) (m : AnnotationMap) : AnnotationMap :=
  match t.entryPoints with
  | some l => if l = [] then m else annInsert m entryPointsKey (joinComma l)
  | none => m

/-- Lines 116–120: `if (traefik.middlewares?.length)`. -/
def addMiddlewares (t : TraefikConfig) (m : AnnotationMap) : AnnotationMap :=
  match t.middlewares with
  | some l => if l = [] then m else annInsert m middlewaresKey (joinComma l)
  | none => m

/-- Lines 122–127: `if (traefik.certResolver)` — string truthiness, so the
empty string behaves as absent; sets the resolver key and the companion
`router.tls = "true"` flag. -/
def addCertResolver (t : TraefikConfig) (m : AnnotationMap) : AnnotationMap :=
  match t.certResolver with
  | some s =>
    if s = "" then m
    else annInsert (annInsert m certResolverKey s) tlsKey "true"
  | none => m

/-- Lines 129–134: `if (traefik.priority !== undefined)` — presence test,
then `String(priority)`. -/
def addPriority (t : TraefikConfig) (m : AnnotationMap) : AnnotationMap :=
  match t.priority with
  | some p => annInsert m priorityKey p.toStr
  | none => m

/-- Lines 136–143: `if (traefik.sticky)` — boolean truthiness, so only
`true` emits; sets the cookie flag and the fixed cookie name. -/
def addSticky (t : TraefikConfig) (m : AnnotationMap) : AnnotationMap :=
  match t.sticky with
  | some true =>
    annInsert (annInsert m stickyKey "true") stickyNameKey "traefik_sticky"
  | _ => m

/-- Lines 145–149: `if (traefik.passHostHeader !== undefined)` — presence
test, then `String(passHostHeader)`, so `false` emits `"false"`. -/
def addPassHostHeader (t : TraefikConfig) (m : AnnotationMap) : AnnotationMap :=
  match t.passHostHeader with
  | some b => annInsert m passHostHeaderKey (if b then "true" else "false")
  | none => m

/-- `buildTraefikAnnotations(input)` restricted to the data it reads:
`input.traefik` and `input.annotations` (both optional in
`createIngressSchema`). Spreading an absent record adds nothing. -/
def buildTraefikAnnotations (traefik : Option TraefikConfig)
    (userAnnotations : Option AnnotationMap) : AnnotationMap :=
  let base := annMerge (annInsert emptyAnn ingressClassKey "traefik")
      (userAnnotations.getD emptyAnn)
  match traefik with
  | none => base
  | some t =>
    addPassHostHeader t (addSticky t (addPriority t (addCertResolver t
      (addMiddlewares t (addEntryPoints t base)))))

/-! ### Decoder (`parseTraefikConfig`, ingress.service.ts lines 158–203) -/

/-- The recurring decoder pattern
`const x = annotations[key]; if (x) config.field = f(x);`:
the field is assigned only when the value is present and truthy (non-empty). -/
def readTruthy {α : Type} (o : Option String) (f : String → α) : Option α :=
  match o with
  | some s => if s = "" then none else some (f s)
  | none => none

/-- `parseTraefikConfig(annotations)`: reads each Traefik key independently;
string-truthiness guards for entrypoints, middlewares, certresolver,
priority and passhostheader; exact `=== "true"` for sticky; returns the
config only when at least one field was assigned
(`Object.keys(config).length > 0`). -/
def parseTraefikConfig (annotations : Option AnnotationMap) :
    Option TraefikConfig :=
  match annotations with
  | none => none
  | some m =>
    let entryPoints : Option (List String) :=
      readTruthy (m entryPointsKey) splitComma
    let middlewares : Option (List String) :=
      readTruthy (m middlewaresKey) splitComma
    let certResolver : Option String :=
      readTruthy (m certResolverKey) (fun s => s)
    let priority : Option JsNum :=
      readTruthy (m priorityKey) parseIntJS
    let sticky : Option Bool :=
      if m stickyKey = some "true" then some true else none
    let passHostHeader : Option Bool :=
      readTruthy (m passHostHeaderKey) (fun s => s == "true")
    if entryPoints.isSome || middlewares.isSome || certResolver.isSome ||
        priority.isSome || sticky.isSome || passHostHeader.isSome then
      some ⟨entryPoints, middlewares, certResolver, priority, sticky,
        passHostHeader⟩
    else
      none

/-! ### Concrete data for the end-to-end scenario (spec §8) -/

/-- The end-to-end scenario input
`{entryPoints: ["websecure"], certResolver: "letsencrypt", priority: 100,
sticky: true, passHostHeader: true}`. -/
def demoConfig : TraefikConfig :=
  { entryPoints := some ["websecure"], certResolver := some "letsencrypt",
    priority := some (JsNum.int 100), sticky := some true,
    passHostHeader := some true }

/-- The encoder output for the end-to-end scenario with empty user
annotations. -/
def demoOut : AnnotationMap :=
  buildTraefikAnnotations (some demoConfig) (some emptyAnn)

/-! ## Helper lemmas: strings and characters -/

theorem stringMk_data (s : String) : String.mk s.data = s := by
  cases s
  rfl

theorem stringMk_ne_empty (cs : List Char) (h : cs ≠ []) :
    (String.mk cs : String) ≠ "" := by
  intro e
  exact h (congrArg String.data e)

theorem data_ne_nil_of_ne_empty (s : String) (h : s ≠ "") : s.data ≠ [] := by
  intro hd
  apply h
  cases s
  rw [show ("" : String) = String.mk [] from rfl]
  exact congrArg String.mk hd

theorem splitChars_no_comma (x : List Char) (h : ',' ∉ x) :
    splitChars x = [x] := by
  induction x with
  | nil => rfl
  | cons c cs ih =>
    have hc : ¬ c = ',' := by
      intro e
      exact h (e ▸ List.mem_cons_self c cs)
    have hcs : ',' ∉ cs := fun hm => h (List.mem_cons_of_mem c hm)
    rw [splitChars, if_neg hc, ih hcs]

theorem splitChars_append_comma (x r : List Char) (h : ',' ∉ x) :
    splitChars (x ++ ',' :: r) = x :: splitChars r := by
  induction x with
  | nil => simp [splitChars]
  | cons c cs ih =>
    have hc : ¬ c = ',' := by
      intro e
      exact h (e ▸ List.mem_cons_self c cs)
    have hcs : ',' ∉ cs := fun hm => h (List.mem_cons_of_mem c hm)
    rw [List.cons_append, splitChars, if_neg hc, ih hcs]

theorem splitChars_joinChars (l : List (List Char)) (h1 : l ≠ [])
    (h2 : ∀ x ∈ l, ',' ∉ x) : splitChars (joinChars l) = l := by
  induction l with
  | nil => exact absurd rfl h1
  | cons x xs ih =>
    cases xs with
    | nil =>
      show splitChars (joinChars [x]) = [x]
      rw [joinChars, splitChars_no_comma x (h2 x (List.mem_cons_self x []))]
    | cons y ys =>
      show splitChars (x ++ ',' :: joinChars (y :: ys)) = x :: (y :: ys)
      rw [splitChars_append_comma x _ (h2 x (List.mem_cons_self x _)),
        ih (by simp) (fun z hz => h2 z (List.mem_cons_of_mem x hz))]

theorem splitComma_joinComma (l : List String) (h1 : l ≠ [])
    (h2 : ∀ s ∈ l, ',' ∉ s.data) : splitComma (joinComma l) = l := by
  unfold splitComma joinComma
  have hmapne : l.map String.data ≠ [] := by simp [h1]
  have hmapc : ∀ x ∈ l.map String.data, ',' ∉ x := by
    intro x hx
    obtain ⟨s, hs, rfl⟩ := List.mem_map.1 hx
    exact h2 s hs
  rw [show (String.mk (joinChars (l.map String.data))).data
      = joinChars (l.map String.data) from rfl,
    splitChars_joinChars _ hmapne hmapc, List.map_map,
    show String.mk ∘ String.data = id from funext stringMk_data, List.map_id]

theorem joinComma_ne_empty (l : List String) (h : ∃ s ∈ l, s ≠ "") :
    joinComma l ≠ "" := by
  obtain ⟨s, hs, hsne⟩ := h
  cases l with
  | nil => exact absurd hs (by simp)
  | cons x xs =>
    cases xs with
    | nil =>
      have hsx : s = x := by simpa using hs
      subst hsx
      show String.mk (joinChars [s.data]) ≠ ""
      rw [joinChars]
      exact stringMk_ne_empty _ (data_ne_nil_of_ne_empty s hsne)
    | cons y ys =>
      show String.mk (x.data ++ ',' :: joinChars ((y :: ys).map String.data)) ≠ ""
      apply stringMk_ne_empty
      simp

theorem toDigitsCore_len (b : Nat) :
    ∀ (fuel n : Nat) (ds : List Char),
      ds.length ≤ (Nat.toDigitsCore b fuel n ds).length := by
  intro fuel
  induction fuel with
  | zero =>
    intro n ds
    rw [Nat.toDigitsCore]
  | succ f ih =>
    intro n ds
    rw [Nat.toDigitsCore]
    by_cases h : n / b = 0
    · simp [h]
    · rw [if_neg h]
      calc ds.length ≤ (Nat.digitChar (n % b) :: ds).length := by simp
        _ ≤ _ := ih _ _

theorem toDigits_ne_nil (b n : Nat) : Nat.toDigits b n ≠ [] := by
  unfold Nat.toDigits
  rw [Nat.toDigitsCore]
  by_cases h : n / b = 0
  · simp [h]
  · rw [if_neg h]
    intro hc
    have hlen := toDigitsCore_len b n (n / b) [Nat.digitChar (n % b)]
    rw [hc] at hlen
    simp at hlen

theorem natRepr_ne_empty (n : Nat) : Nat.repr n ≠ "" := by
  unfold Nat.repr
  intro h
  have h2 : (Nat.toDigits 10 n).asString.data = ("" : String).data := by rw [h]
  simp [List.asString] at h2
  exact toDigits_ne_nil 10 n h2

theorem intRepr_ne_empty (n : Int) : Int.repr n ≠ "" := by
  cases n with
  | ofNat m => exact natRepr_ne_empty m
  | negSucc m =>
    show "-" ++ Nat.repr (m + 1) ≠ ""
    intro h
    have h2 : ("-" ++ Nat.repr (m + 1)).data = ("" : String).data := by rw [h]
    rw [String.data_append] at h2
    simp at h2

theorem jsNum_toStr_ne_empty (p : JsNum) : p.toStr ≠ "" := by
  cases p with
  | nan => decide
  | int n => exact intRepr_ne_empty n

/-! ## Helper lemmas: the annotation map operations, pointwise -/

theorem annInsert_self (m : AnnotationMap) (k v : String) :
    annInsert m k v k = some v := by
  simp [annInsert]

theorem annInsert_ne (m : AnnotationMap) (k v q : String) (h : q ≠ k) :
    annInsert m k v q = m q := by
  simp [annInsert, h]

theorem base_apply_ne (u : Option AnnotationMap) (q : String)
    (h : q ≠ ingressClassKey) :
    annMerge (annInsert emptyAnn ingressClassKey "traefik")
      (u.getD emptyAnn) q = (u.getD emptyAnn) q := by
  cases hu : (u.getD emptyAnn) q <;>
    simp [annMerge, annInsert, emptyAnn, h, hu]


/-! ## Helper lemmas: key distinctness facts used to discharge guards -/

theorem cr_ne_tls : certResolverKey ≠ tlsKey := by decide

theorem stn_ne_st : stickyNameKey ≠ stickyKey := by decide

theorem st_ne_stn : stickyKey ≠ stickyNameKey := by decide

/-! ## Helper lemmas: each encoder step leaves other keys untouched -/

theorem addEntryPoints_ne (t : TraefikConfig) (m : AnnotationMap)
    (q : String) (h : q ≠ entryPointsKey) : addEntryPoints t m q = m q := by
  unfold addEntryPoints
  cases t.entryPoints with
  | none => rfl
  | some l => by_cases hl : l = [] <;> simp [hl, annInsert, h]

theorem addMiddlewares_ne (t : TraefikConfig) (m : AnnotationMap)
    (q : String) (h : q ≠ middlewaresKey) : addMiddlewares t m q = m q := by
  unfold addMiddlewares
  cases t.middlewares with
  | none => rfl
  | some l => by_cases hl : l = [] <;> simp [hl, annInsert, h]

theorem addCertResolver_ne (t : TraefikConfig) (m : AnnotationMap)
    (q : String) (h1 : q ≠ certResolverKey) (h2 : q ≠ tlsKey) :
    addCertResolver t m q = m q := by
  unfold addCertResolver
  cases t.certResolver with
  | none => rfl
  | some s => by_cases hs : s = "" <;> simp [hs, annInsert, h1, h2]

theorem addPriority_ne (t : TraefikConfig) (m : AnnotationMap)
    (q : String) (h : q ≠ priorityKey) : addPriority t m q = m q := by
  unfold addPriority
  cases t.priority with
  | none => rfl
  | some p => simp [annInsert, h]

theorem addSticky_ne (t : TraefikConfig) (m : AnnotationMap)
    (q : String) (h1 : q ≠ stickyKey) (h2 : q ≠ stickyNameKey) :
    addSticky t m q = m q := by
  unfold addSticky
  cases t.sticky with
  | none => rfl
  | some b => cases b with
    | false => rfl
    | true => simp [annInsert, h1, h2]

theorem addPassHostHeader_ne (t : TraefikConfig) (m : AnnotationMap)
    (q : String) (h : q ≠ passHostHeaderKey) :
    addPassHostHeader t m q = m q := by
  unfold addPassHostHeader
  cases t.passHostHeader with
  | none => rfl
  | some b => simp [annInsert, h]

/-! ## Helper lemmas: cumulative prefixes of the encoder chain.
`chainEP t u = addEntryPoints t base`, `chainMW` adds middlewares on top,
and so on; `buildTraefikAnnotations (some t) u` is `chainPHH t u`. -/

def baseAnn (u : Option AnnotationMap) : AnnotationMap :=
  annMerge (annInsert emptyAnn ingressClassKey "traefik") (u.getD emptyAnn)

def chainEP (t : TraefikConfig) (u : Option AnnotationMap) : AnnotationMap :=
  addEntryPoints t (baseAnn u)

def chainMW (t : TraefikConfig) (u : Option AnnotationMap) : AnnotationMap :=
  addMiddlewares t (chainEP t u)

def chainCR (t : TraefikConfig) (u : Option AnnotationMap) : AnnotationMap :=
  addCertResolver t (chainMW t u)

def chainPR (t : TraefikConfig) (u : Option AnnotationMap) : AnnotationMap :=
  addPriority t (chainCR t u)

def chainST (t : TraefikConfig) (u : Option AnnotationMap) : AnnotationMap :=
  addSticky t (chainPR t u)

def chainPHH (t : TraefikConfig) (u : Option AnnotationMap) : AnnotationMap :=
  addPassHostHeader t (chainST t u)

theorem build_eq_chain (t : TraefikConfig) (u : Option AnnotationMap) :
    buildTraefikAnnotations (some t) u = chainPHH t u := rfl

theorem chainEP_at (t : TraefikConfig) (u : Option AnnotationMap)
    (q : String) (h1 : q ≠ entryPointsKey) (h0 : q ≠ ingressClassKey) :
    chainEP t u q = (u.getD emptyAnn) q := by
  unfold chainEP
  rw [addEntryPoints_ne _ _ _ h1]
  exact base_apply_ne u q h0

theorem chainMW_at (t : TraefikConfig) (u : Option AnnotationMap)
    (q : String) (h1 : q ≠ entryPointsKey) (h2 : q ≠ middlewaresKey)
    (h0 : q ≠ ingressClassKey) :
    chainMW t u q = (u.getD emptyAnn) q := by
  unfold chainMW
  rw [addMiddlewares_ne _ _ _ h2]
  exact chainEP_at t u q h1 h0

theorem chainCR_at (t : TraefikConfig) (u : Option AnnotationMap)
    (q : String) (h1 : q ≠ entryPointsKey) (h2 : q ≠ middlewaresKey)
    (h3 : q ≠ certResolverKey) (h4 : q ≠ tlsKey)
    (h0 : q ≠ ingressClassKey) :
    chainCR t u q = (u.getD emptyAnn) q := by
  unfold chainCR
  rw [addCertResolver_ne _ _ _ h3 h4]
  exact chainMW_at t u q h1 h2 h0

theorem chainPR_at (t : TraefikConfig) (u : Option AnnotationMap)
    (q : String) (h1 : q ≠ entryPointsKey) (h2 : q ≠ middlewaresKey)
    (h3 : q ≠ certResolverKey) (h4 : q ≠ tlsKey) (h5 : q ≠ priorityKey)
    (h0 : q ≠ ingressClassKey) :
    chainPR t u q = (u.getD emptyAnn) q := by
  unfold chainPR
  rw [addPriority_ne _ _ _ h5]
  exact chainCR_at t u q h1 h2 h3 h4 h0

theorem chainST_at (t : TraefikConfig) (u : Option AnnotationMap)
    (q : String) (h1 : q ≠ entryPointsKey) (h2 : q ≠ middlewaresKey)
    (h3 : q ≠ certResolverKey) (h4 : q ≠ tlsKey) (h5 : q ≠ priorityKey)
    (h6 : q ≠ stickyKey) (h7 : q ≠ stickyNameKey)
    (h0 : q ≠ ingressClassKey) :
    chainST t u q = (u.getD emptyAnn) q := by
  unfold chainST
  rw [addSticky_ne _ _ _ h6 h7]
  exact chainPR_at t u q h1 h2 h3 h4 h5 h0

theorem build_other (t : TraefikConfig) (u : Option AnnotationMap)
    (q : String) (h1 : q ≠ entryPointsKey) (h2 : q ≠ middlewaresKey)
    (h3 : q ≠ certResolverKey) (h4 : q ≠ tlsKey) (h5 : q ≠ priorityKey)
    (h6 : q ≠ stickyKey) (h7 : q ≠ stickyNameKey)
    (h8 : q ≠ passHostHeaderKey) (h0 : q ≠ ingressClassKey) :
    buildTraefikAnnotations (some t) u q = (u.getD emptyAnn) q := by
  rw [build_eq_chain]
  unfold chainPHH
  rw [addPassHostHeader_ne _ _ _ h8]
  exact chainST_at t u q h1 h2 h3 h4 h5 h6 h7 h0

/-! ## Helper lemmas: the encoder output at each derived key -/

theorem build_ep_set (t : TraefikConfig) (u : Option AnnotationMap)
    (l : List String) (h : t.entryPoints = some l) (hl : l ≠ []) :
    buildTraefikAnnotations (some t) u entryPointsKey
      = some (joinComma l) := by
  rw [build_eq_chain]
  unfold chainPHH
  rw [addPassHostHeader_ne _ _ _ (by decide)]
  unfold chainST
  rw [addSticky_ne _ _ _ (by decide) (by decide)]
  unfold chainPR
  rw [addPriority_ne _ _ _ (by decide)]
  unfold chainCR
  rw [addCertResolver_ne _ _ _ (by decide) (by decide)]
  unfold chainMW
  rw [addMiddlewares_ne _ _ _ (by decide)]
  unfold chainEP addEntryPoints
  rw [h]
  simp [hl, annInsert_self]

theorem build_ep_unset (t : TraefikConfig) (u : Option AnnotationMap)
    (h : t.entryPoints = none ∨ t.entryPoints = some []) :
    buildTraefikAnnotations (some t) u entryPointsKey
      = (u.getD emptyAnn) entryPointsKey := by
  rw [build_eq_chain]
  unfold chainPHH
  rw [addPassHostHeader_ne _ _ _ (by decide)]
  unfold chainST
  rw [addSticky_ne _ _ _ (by decide) (by decide)]
  unfold chainPR
  rw [addPriority_ne _ _ _ (by decide)]
  unfold chainCR
  rw [addCertResolver_ne _ _ _ (by decide) (by decide)]
  unfold chainMW
  rw [addMiddlewares_ne _ _ _ (by decide)]
  unfold chainEP addEntryPoints
  rcases h with h | h <;> rw [h] <;>
    exact base_apply_ne u _ (by decide)

theorem build_mw_set (t : TraefikConfig) (u : Option AnnotationMap)
    (l : List String) (h : t.middlewares = some l) (hl : l ≠ []) :
    buildTraefikAnnotations (some t) u middlewaresKey
      = some (joinComma l) := by
  rw [build_eq_chain]
  unfold chainPHH
  rw [addPassHostHeader_ne _ _ _ (by decide)]
  unfold chainST
  rw [addSticky_ne _ _ _ (by decide) (by decide)]
  unfold chainPR
  rw [addPriority_ne _ _ _ (by decide)]
  unfold chainCR
  rw [addCertResolver_ne _ _ _ (by decide) (by decide)]
  unfold chainMW addMiddlewares
  rw [h]
  simp [hl, annInsert_self]

theorem build_mw_unset (t : TraefikConfig) (u : Option AnnotationMap)
    (h : t.middlewares = none ∨ t.middlewares = some []) :
    buildTraefikAnnotations (some t) u middlewaresKey
      = (u.getD emptyAnn) middlewaresKey := by
  rw [build_eq_chain]
  unfold chainPHH
  rw [addPassHostHeader_ne _ _ _ (by decide)]
  unfold chainST
  rw [addSticky_ne _ _ _ (by decide) (by decide)]
  unfold chainPR
  rw [addPriority_ne _ _ _ (by decide)]
  unfold chainCR
  rw [addCertResolver_ne _ _ _ (by decide) (by decide)]
  unfold chainMW addMiddlewares
  rcases h with h | h <;> rw [h] <;>
    exact chainEP_at t u _ (by decide) (by decide)

theorem build_cr_set (t : TraefikConfig) (u : Option AnnotationMap)
    (s : String) (h : t.certResolver = some s) (hs : s ≠ "") :
    buildTraefikAnnotations (some t) u certResolverKey = some s ∧
    buildTraefikAnnotations (some t) u tlsKey = some "true" := by
  constructor <;>
  · rw [build_eq_chain]
    unfold chainPHH
    rw [addPassHostHeader_ne _ _ _ (by decide)]
    unfold chainST
    rw [addSticky_ne _ _ _ (by decide) (by decide)]
    unfold chainPR
    rw [addPriority_ne _ _ _ (by decide)]
    unfold chainCR addCertResolver
    rw [h]
    simp [hs, annInsert, annInsert_self, cr_ne_tls]

theorem build_cr_unset (t : TraefikConfig) (u : Option AnnotationMap)
    (h : t.certResolver = none ∨ t.certResolver = some "") :
    buildTraefikAnnotations (some t) u certResolverKey
        = (u.getD emptyAnn) certResolverKey ∧
    buildTraefikAnnotations (some t) u tlsKey
        = (u.getD emptyAnn) tlsKey := by
  constructor <;>
  · rw [build_eq_chain]
    unfold chainPHH
    rw [addPassHostHeader_ne _ _ _ (by decide)]
    unfold chainST
    rw [addSticky_ne _ _ _ (by decide) (by decide)]
    unfold chainPR
    rw [addPriority_ne _ _ _ (by decide)]
    unfold chainCR addCertResolver
    rcases h with h | h <;> rw [h] <;>
      exact chainMW_at t u _ (by decide) (by decide) (by decide)

theorem build_pr_set (t : TraefikConfig) (u : Option AnnotationMap)
    (p : JsNum) (h : t.priority = some p) :
    buildTraefikAnnotations (some t) u priorityKey = some p.toStr := by
  rw [build_eq_chain]
  unfold chainPHH
  rw [addPassHostHeader_ne _ _ _ (by decide)]
  unfold chainST
  rw [addSticky_ne _ _ _ (by decide) (by decide)]
  unfold chainPR addPriority
  rw [h]
  exact annInsert_self _ _ _

theorem build_pr_unset (t : TraefikConfig) (u : Option AnnotationMap)
    (h : t.priority = none) :
    buildTraefikAnnotations (some t) u priorityKey
      = (u.getD emptyAnn) priorityKey := by
  rw [build_eq_chain]
  unfold chainPHH
  rw [addPassHostHeader_ne _ _ _ (by decide)]
  unfold chainST
  rw [addSticky_ne _ _ _ (by decide) (by decide)]
  unfold chainPR addPriority
  rw [h]
  exact chainCR_at t u _ (by decide) (by decide) (by decide) (by decide)
    (by decide)

theorem build_st_set (t : TraefikConfig) (u : Option AnnotationMap)
    (h : t.sticky = some true) :
    buildTraefikAnnotations (some t) u stickyKey = some "true" ∧
    buildTraefikAnnotations (some t) u stickyNameKey
      = some "traefik_sticky" := by
  constructor <;>
  · rw [build_eq_chain]
    unfold chainPHH
    rw [addPassHostHeader_ne _ _ _ (by decide)]
    unfold chainST addSticky
    rw [h]
    simp [annInsert, annInsert_self, stn_ne_st, st_ne_stn]

theorem build_st_unset (t : TraefikConfig) (u : Option AnnotationMap)
    (h : t.sticky = none ∨ t.sticky = some false) :
    buildTraefikAnnotations (some t) u stickyKey
        = (u.getD emptyAnn) stickyKey ∧
    buildTraefikAnnotations (some t) u stickyNameKey
        = (u.getD emptyAnn) stickyNameKey := by
  constructor <;>
  · rw [build_eq_chain]
    unfold chainPHH
    rw [addPassHostHeader_ne _ _ _ (by decide)]
    unfold chainST addSticky
    rcases h with h | h <;> rw [h] <;>
      exact chainPR_at t u _ (by decide) (by decide) (by decide) (by decide)
        (by decide) (by decide)

theorem build_phh_set (t : TraefikConfig) (u : Option AnnotationMap)
    (b : Bool) (h : t.passHostHeader = some b) :
    buildTraefikAnnotations (some t) u passHostHeaderKey
      = some (if b then "true" else "false") := by
  rw [build_eq_chain]
  unfold chainPHH addPassHostHeader
  rw [h]
  exact annInsert_self _ _ _

theorem build_phh_unset (t : TraefikConfig) (u : Option AnnotationMap)
    (h : t.passHostHeader = none) :
    buildTraefikAnnotations (some t) u passHostHeaderKey
      = (u.getD emptyAnn) passHostHeaderKey := by
  rw [build_eq_chain]
  unfold chainPHH addPassHostHeader
  rw [h]
  exact chainST_at t u _ (by decide) (by decide) (by decide) (by decide)
    (by decide) (by decide) (by decide) (by decide)


/-! ## Helper lemmas: the decoder guards -/

theorem readTruthy_of_falsy {α : Type} (o : Option String) (f : String → α)
    (h : truthyStr o = false) : readTruthy o f = none := by
  cases o with
  | none => rfl
  | some s =>
    have hs : s = "" := by simpa [truthyStr] using h
    simp [readTruthy, hs]


/-! ## Claims -/

/-- C1: the claim states that for every userAnnotations map the encoder
output maps "kubernetes.io/ingress.class" to "traefik", the fixed key being
applied after merging userAnnotations. In the source the spread
`...input.annotations` comes after the fixed entry, so a user-supplied value
for that key survives: evaluated at
userAnnotations = {"kubernetes.io/ingress.class": "nginx"}, the encoder
returns "nginx" for that key, contradicting the claim (and the inline
comment "Always use Traefik as ingress controller" in the source). -/
theorem C1_ingress_class_override_eval :
    buildTraefikAnnotations none
        (some (annInsert emptyAnn ingressClassKey "nginx")) ingressClassKey
      = some "nginx" ∧ ("nginx" : String) ≠ "traefik" := by
  decide

/-- C2 counterexample: the claim states the encoder never emits a derived
key with an empty string value, but for the config
{entryPoints: [""]} (a non-empty array whose single element is empty) the
guard `entryPoints?.length` is truthy and `[""].join(",")` is `""`, so the
entrypoints key is emitted with value "". -/
theorem C2_counterexample_empty_derived_value :
    buildTraefikAnnotations (some { entryPoints := some [""] })
        (some emptyAnn) entryPointsKey = some "" ∧
    entryPointsKey ∈ derivedKeys := by
  decide

/-- C2 (amended): when userAnnotations contains no derived Traefik key, the
encoder overlays a derived key only when the corresponding structured field
is set (array fields: set and non-empty; certResolver: set and non-empty;
sticky: exactly true), and no derived key in its output carries the empty
string provided every set array field has at least one non-empty element
(the counterexample shows that an array field all of whose elements are
empty produces an empty value). -/
theorem C2_amended_derived_keys (t : TraefikConfig) (u : AnnotationMap)
    (hu : ∀ k ∈ derivedKeys, u k = none)
    (hep : ∀ l, t.entryPoints = some l → l ≠ [] → ∃ s ∈ l, s ≠ "")
    (hmw : ∀ l, t.middlewares = some l → l ≠ [] → ∃ s ∈ l, s ≠ "") :
    (∀ k ∈ derivedKeys,
      buildTraefikAnnotations (some t) (some u) k ≠ some "") ∧
    (buildTraefikAnnotations (some t) (some u) entryPointsKey ≠ none →
      ∃ l, t.entryPoints = some l ∧ l ≠ []) ∧
    (buildTraefikAnnotations (some t) (some u) middlewaresKey ≠ none →
      ∃ l, t.middlewares = some l ∧ l ≠ []) ∧
    (buildTraefikAnnotations (some t) (some u) certResolverKey ≠ none →
      ∃ s, t.certResolver = some s ∧ s ≠ "") ∧
    (buildTraefikAnnotations (some t) (some u) tlsKey ≠ none →
      ∃ s, t.certResolver = some s ∧ s ≠ "") ∧
    (buildTraefikAnnotations (some t) (some u) priorityKey ≠ none →
      t.priority.isSome = true) ∧
    (buildTraefikAnnotations (some t) (some u) stickyKey ≠ none →
      t.sticky = some true) ∧
    (buildTraefikAnnotations (some t) (some u) stickyNameKey ≠ none →
      t.sticky = some true) ∧
    (buildTraefikAnnotations (some t) (some u) passHostHeaderKey ≠ none →
      t.passHostHeader.isSome = true) := by
  have vEP : buildTraefikAnnotations (some t) (some u) entryPointsKey = none
      ∨ ∃ l, t.entryPoints = some l ∧ l ≠ [] ∧
        buildTraefikAnnotations (some t) (some u) entryPointsKey
          = some (joinComma l) := by
    rcases hept : t.entryPoints with _ | l
    · left
      rw [build_ep_unset t _ (Or.inl hept)]
      exact hu entryPointsKey (by decide)
    · by_cases hl : l = []
      · left
        rw [build_ep_unset t _ (Or.inr (hl ▸ hept))]
        exact hu entryPointsKey (by decide)
      · exact Or.inr ⟨l, rfl, hl, build_ep_set t _ l hept hl⟩
  have vMW : buildTraefikAnnotations (some t) (some u) middlewaresKey = none
      ∨ ∃ l, t.middlewares = some l ∧ l ≠ [] ∧
        buildTraefikAnnotations (some t) (some u) middlewaresKey
          = some (joinComma l) := by
    rcases hmwt : t.middlewares with _ | l
    · left
      rw [build_mw_unset t _ (Or.inl hmwt)]
      exact hu middlewaresKey (by decide)
    · by_cases hl : l = []
      · left
        rw [build_mw_unset t _ (Or.inr (hl ▸ hmwt))]
        exact hu middlewaresKey (by decide)
      · exact Or.inr ⟨l, rfl, hl, build_mw_set t _ l hmwt hl⟩
  have vCR : (buildTraefikAnnotations (some t) (some u) certResolverKey = none
        ∧ buildTraefikAnnotations (some t) (some u) tlsKey = none)
      ∨ ∃ s, t.certResolver = some s ∧ s ≠ "" ∧
        buildTraefikAnnotations (some t) (some u) certResolverKey = some s ∧
        buildTraefikAnnotations (some t) (some u) tlsKey = some "true" := by
    rcases hcrt : t.certResolver with _ | s
    · left
      have h2 := build_cr_unset t (some u) (Or.inl hcrt)
      exact ⟨(by rw [h2.1]; exact hu certResolverKey (by decide)),
        (by rw [h2.2]; exact hu tlsKey (by decide))⟩
    · by_cases hs : s = ""
      · left
        have h2 := build_cr_unset t (some u) (Or.inr (hs ▸ hcrt))
        exact ⟨(by rw [h2.1]; exact hu certResolverKey (by decide)),
          (by rw [h2.2]; exact hu tlsKey (by decide))⟩
      · have h2 := build_cr_set t (some u) s hcrt hs
        exact Or.inr ⟨s, rfl, hs, h2.1, h2.2⟩
  have vPR : (buildTraefikAnnotations (some t) (some u) priorityKey = none
        ∧ t.priority = none)
      ∨ ∃ p, t.priority = some p ∧
        buildTraefikAnnotations (some t) (some u) priorityKey
          = some p.toStr := by
    rcases hprt : t.priority with _ | p
    · left
      exact ⟨(by rw [build_pr_unset t _ hprt]; exact hu priorityKey (by decide)), rfl⟩
    · exact Or.inr ⟨p, rfl, build_pr_set t _ p hprt⟩
  have vST : (buildTraefikAnnotations (some t) (some u) stickyKey = none
        ∧ buildTraefikAnnotations (some t) (some u) stickyNameKey = none)
      ∨ (t.sticky = some true ∧
        buildTraefikAnnotations (some t) (some u) stickyKey = some "true" ∧
        buildTraefikAnnotations (some t) (some u) stickyNameKey
          = some "traefik_sticky") := by
    rcases hstt : t.sticky with _ | b
    · left
      have h2 := build_st_unset t (some u) (Or.inl hstt)
      exact ⟨(by rw [h2.1]; exact hu stickyKey (by decide)),
        (by rw [h2.2]; exact hu stickyNameKey (by decide))⟩
    · cases b with
      | false =>
        left
        have h2 := build_st_unset t (some u) (Or.inr hstt)
        exact ⟨(by rw [h2.1]; exact hu stickyKey (by decide)),
          (by rw [h2.2]; exact hu stickyNameKey (by decide))⟩
      | true =>
        have h2 := build_st_set t (some u) hstt
        exact Or.inr ⟨rfl, h2.1, h2.2⟩
  have vPHH : (buildTraefikAnnotations (some t) (some u) passHostHeaderKey
          = none ∧ t.passHostHeader = none)
      ∨ ∃ b, t.passHostHeader = some b ∧
        buildTraefikAnnotations (some t) (some u) passHostHeaderKey
          = some (if b then "true" else "false") := by
    rcases hpht : t.passHostHeader with _ | b
    · left
      exact ⟨(by rw [build_phh_unset t _ hpht]; exact hu passHostHeaderKey (by decide)), rfl⟩
    · exact Or.inr ⟨b, rfl, build_phh_set t _ b hpht⟩
  refine ⟨?_, ?_, ?_, ?_, ?_, ?_, ?_, ?_, ?_⟩
  · intro k hk
    have hk2 : k = entryPointsKey ∨ k = middlewaresKey ∨ k = certResolverKey
        ∨ k = tlsKey ∨ k = priorityKey ∨ k = stickyKey ∨ k = stickyNameKey
        ∨ k = passHostHeaderKey := by simpa [derivedKeys] using hk
    rcases hk2 with rfl | rfl | rfl | rfl | rfl | rfl | rfl | rfl
    · rcases vEP with h | ⟨l, hl1, hl2, hl3⟩
      · simp [h]
      · rw [hl3]
        simp [joinComma_ne_empty l (hep l hl1 hl2)]
    · rcases vMW with h | ⟨l, hl1, hl2, hl3⟩
      · simp [h]
      · rw [hl3]
        simp [joinComma_ne_empty l (hmw l hl1 hl2)]
    · rcases vCR with ⟨h, _⟩ | ⟨s, _, hs, h3, _⟩
      · simp [h]
      · rw [h3]
        simp [hs]
    · rcases vCR with ⟨_, h⟩ | ⟨s, _, _, _, h4⟩
      · simp [h]
      · simp [h4]
    · rcases vPR with ⟨h, _⟩ | ⟨p, _, h2⟩
      · simp [h]
      · rw [h2]
        simp [jsNum_toStr_ne_empty p]
    · rcases vST with ⟨h, _⟩ | ⟨_, h2, _⟩
      · simp [h]
      · simp [h2]
    · rcases vST with ⟨_, h⟩ | ⟨_, _, h3⟩
      · simp [h]
      · simp [h3]
    · rcases vPHH with ⟨h, _⟩ | ⟨b, _, h2⟩
      · simp [h]
      · rw [h2]
        cases b <;> simp
  · intro hne
    rcases vEP with h | ⟨l, hl1, hl2, _⟩
    · exact absurd h hne
    · exact ⟨l, hl1, hl2⟩
  · intro hne
    rcases vMW with h | ⟨l, hl1, hl2, _⟩
    · exact absurd h hne
    · exact ⟨l, hl1, hl2⟩
  · intro hne
    rcases vCR with ⟨h, _⟩ | ⟨s, hs1, hs2, _, _⟩
    · exact absurd h hne
    · exact ⟨s, hs1, hs2⟩
  · intro hne
    rcases vCR with ⟨_, h⟩ | ⟨s, hs1, hs2, _, _⟩
    · exact absurd h hne
    · exact ⟨s, hs1, hs2⟩
  · intro hne
    rcases vPR with ⟨h, _⟩ | ⟨p, hp, _⟩
    · exact absurd h hne
    · simp [hp]
  · intro hne
    rcases vST with ⟨h, _⟩ | ⟨h1, _, _⟩
    · exact absurd h hne
    · exact h1
  · intro hne
    rcases vST with ⟨_, h⟩ | ⟨h1, _, _⟩
    · exact absurd h hne
    · exact h1
  · intro hne
    rcases vPHH with ⟨h, _⟩ | ⟨b, hb, _⟩
    · exact absurd h hne
    · simp [hb]

/-- C2 witness: the amended theorem applied at the concrete config
{entryPoints: ["web"]} with empty user annotations. -/
theorem C2_amended_derived_keys_witness :
    buildTraefikAnnotations (some { entryPoints := some ["web"] })
      (some emptyAnn) entryPointsKey ≠ some "" :=
  (C2_amended_derived_keys { entryPoints := some ["web"] } emptyAnn
    (by decide)
    (by
      intro l h hl
      injection h with h2
      subst h2
      decide)
    (fun l h _ => nomatch h)).1 entryPointsKey (by decide)

/-- C3: the all-unset config encodes (with empty user annotations) to a map
that decodes to absent, and in general the decoder returns absent whenever
none of its six field guards fires. -/
theorem C3_presence_invariant :
    parseTraefikConfig
        (some (buildTraefikAnnotations (some {}) (some emptyAnn))) = none ∧
    ∀ m : AnnotationMap,
      truthyStr (m entryPointsKey) = false →
      truthyStr (m middlewaresKey) = false →
      truthyStr (m certResolverKey) = false →
      truthyStr (m priorityKey) = false →
      m stickyKey ≠ some "true" →
      truthyStr (m passHostHeaderKey) = false →
      parseTraefikConfig (some m) = none := by
  constructor
  · decide
  · intro m h1 h2 h3 h4 h5 h6
    simp [parseTraefikConfig, readTruthy_of_falsy _ _ h1,
      readTruthy_of_falsy _ _ h2, readTruthy_of_falsy _ _ h3,
      readTruthy_of_falsy _ _ h4, h5, readTruthy_of_falsy _ _ h6]

/-- C3 witness: the general part of the presence invariant applied to the
empty annotation map. -/
theorem C3_presence_invariant_witness :
    parseTraefikConfig (some emptyAnn) = none :=
  C3_presence_invariant.2 emptyAnn (by decide) (by decide) (by decide)
    (by decide) (by decide) (by decide)

/-- C4: the end-to-end scenario config encodes with empty user annotations
to exactly the eight expected entries and nothing else. -/
theorem C4_end_to_end_scenario :
    (demoOut ingressClassKey = some "traefik" ∧
     demoOut entryPointsKey = some "websecure" ∧
     demoOut certResolverKey = some "letsencrypt" ∧
     demoOut tlsKey = some "true" ∧
     demoOut priorityKey = some "100" ∧
     demoOut stickyKey = some "true" ∧
     demoOut stickyNameKey = some "traefik_sticky" ∧
     demoOut passHostHeaderKey = some "true" ∧
     demoOut middlewaresKey = none) ∧
    ∀ k : String, k ≠ ingressClassKey → k ≠ entryPointsKey →
      k ≠ certResolverKey → k ≠ tlsKey → k ≠ priorityKey →
      k ≠ stickyKey → k ≠ stickyNameKey → k ≠ passHostHeaderKey →
      demoOut k = none := by
  constructor
  · decide
  · intro k h1 h2 h3 h4 h5 h6 h7 h8
    by_cases hmw : k = middlewaresKey
    · subst hmw
      decide
    · show buildTraefikAnnotations (some demoConfig) (some emptyAnn) k = none
      rw [build_other demoConfig _ k h2 hmw h3 h4 h5 h6 h7 h8 h1]
      rfl

/-- C4 witness: the no-other-keys part applied at a key outside the eight. -/
theorem C4_end_to_end_scenario_witness : demoOut "x" = none :=
  C4_end_to_end_scenario.2 "x" (by decide) (by decide) (by decide)
    (by decide) (by decide) (by decide) (by decide) (by decide)

/-- C5: for non-empty entryPoints (and middlewares) whose elements are
non-empty and comma-free, decode after encode restores exactly the same
list: the encoder joins with "," and the decoder splits on "," with no
trimming. -/
theorem C5_array_field_roundtrip (eps mws : List String)
    (hep1 : eps ≠ []) (hep2 : ∀ s ∈ eps, s ≠ "" ∧ ',' ∉ s.data)
    (hmw1 : mws ≠ []) (hmw2 : ∀ s ∈ mws, s ≠ "" ∧ ',' ∉ s.data) :
    parseTraefikConfig (some (buildTraefikAnnotations
        (some { entryPoints := some eps }) (some emptyAnn)))
      = some { entryPoints := some eps } ∧
    parseTraefikConfig (some (buildTraefikAnnotations
        (some { middlewares := some mws }) (some emptyAnn)))
      = some { middlewares := some mws } := by
  constructor
  · have o1 : buildTraefikAnnotations (some { entryPoints := some eps })
        (some emptyAnn) entryPointsKey = some (joinComma eps) :=
      build_ep_set _ _ eps rfl hep1
    have o2 : buildTraefikAnnotations (some { entryPoints := some eps })
        (some emptyAnn) middlewaresKey = none :=
      build_mw_unset _ _ (Or.inl rfl)
    have o34 := build_cr_unset ({ entryPoints := some eps}) (some emptyAnn)
      (Or.inl rfl)
    have o5 : buildTraefikAnnotations (some { entryPoints := some eps })
        (some emptyAnn) priorityKey = none := build_pr_unset _ _ rfl
    have o67 := build_st_unset ({ entryPoints := some eps}) (some emptyAnn)
      (Or.inl rfl)
    have o8 : buildTraefikAnnotations (some { entryPoints := some eps })
        (some emptyAnn) passHostHeaderKey = none := build_phh_unset _ _ rfl
    have hjoin : joinComma eps ≠ "" := by
      apply joinComma_ne_empty
      rcases eps with _ | ⟨x, xs⟩
      · exact absurd rfl hep1
      · exact ⟨x, by simp, (hep2 x (by simp)).1⟩
    have hsplit : splitComma (joinComma eps) = eps :=
      splitComma_joinComma eps hep1 (fun s hs => (hep2 s hs).2)
    have o3 : buildTraefikAnnotations (some { entryPoints := some eps })
        (some emptyAnn) certResolverKey = none := o34.1
    have o4 : buildTraefikAnnotations (some { entryPoints := some eps })
        (some emptyAnn) tlsKey = none := o34.2
    have o6 : buildTraefikAnnotations (some { entryPoints := some eps })
        (some emptyAnn) stickyKey = none := o67.1
    simp [parseTraefikConfig, o1, o2, o3, o4, o5, o6, o8, readTruthy,
      hjoin, hsplit]
  · have o1 : buildTraefikAnnotations (some { middlewares := some mws })
        (some emptyAnn) middlewaresKey = some (joinComma mws) :=
      build_mw_set _ _ mws rfl hmw1
    have o2 : buildTraefikAnnotations (some { middlewares := some mws })
        (some emptyAnn) entryPointsKey = none :=
      build_ep_unset _ _ (Or.inl rfl)
    have o34 := build_cr_unset ({ middlewares := some mws}) (some emptyAnn)
      (Or.inl rfl)
    have o5 : buildTraefikAnnotations (some { middlewares := some mws })
        (some emptyAnn) priorityKey = none := build_pr_unset _ _ rfl
    have o67 := build_st_unset ({ middlewares := some mws}) (some emptyAnn)
      (Or.inl rfl)
    have o8 : buildTraefikAnnotations (some { middlewares := some mws })
        (some emptyAnn) passHostHeaderKey = none := build_phh_unset _ _ rfl
    have hjoin : joinComma mws ≠ "" := by
      apply joinComma_ne_empty
      rcases mws with _ | ⟨x, xs⟩
      · exact absurd rfl hmw1
      · exact ⟨x, by simp, (hmw2 x (by simp)).1⟩
    have hsplit : splitComma (joinComma mws) = mws :=
      splitComma_joinComma mws hmw1 (fun s hs => (hmw2 s hs).2)
    have o3 : buildTraefikAnnotations (some { middlewares := some mws })
        (some emptyAnn) certResolverKey = none := o34.1
    have o4 : buildTraefikAnnotations (some { middlewares := some mws })
        (some emptyAnn) tlsKey = none := o34.2
    have o6 : buildTraefikAnnotations (some { middlewares := some mws })
        (some emptyAnn) stickyKey = none := o67.1
    simp [parseTraefikConfig, o1, o2, o3, o4, o5, o6, o8, readTruthy,
      hjoin, hsplit]

/-- C5 witness: the round trip applied at entryPoints = ["web", "websecure"]
and middlewares = ["auth"]. -/
theorem C5_array_field_roundtrip_witness :
    parseTraefikConfig (some (buildTraefikAnnotations
        (some { entryPoints := some ["web", "websecure"] }) (some emptyAnn)))
      = some { entryPoints := some ["web", "websecure"] } :=
  (C5_array_field_roundtrip ["web", "websecure"] ["auth"] (by decide)
    (by decide) (by decide) (by decide)).1

/-- C6: passHostHeader = false is encoded as the explicit string "false" and
decodes back to a present config with passHostHeader set to false. -/
theorem C6_passhostheader_false_roundtrip :
    buildTraefikAnnotations (some { passHostHeader := some false })
        (some emptyAnn) passHostHeaderKey = some "false" ∧
    parseTraefikConfig (some (buildTraefikAnnotations
        (some { passHostHeader := some false }) (some emptyAnn)))
      = some { passHostHeader := some false } := by
  decide

/-- C7: sticky = false (and sticky absent) emits no sticky-related keys, so
decode of that output is absent and in particular leaves sticky unset; and
for every annotation map the decoded sticky field is set (to true) exactly
when the sticky-cookie value is the exact string "true". -/
theorem C7_sticky_asymmetry :
    buildTraefikAnnotations (some { sticky := some false }) (some emptyAnn)
        stickyKey = none ∧
    buildTraefikAnnotations (some { sticky := some false }) (some emptyAnn)
        stickyNameKey = none ∧
    buildTraefikAnnotations (some {}) (some emptyAnn) stickyKey = none ∧
    buildTraefikAnnotations (some {}) (some emptyAnn) stickyNameKey
      = none ∧
    parseTraefikConfig (some (buildTraefikAnnotations
        (some { sticky := some false }) (some emptyAnn))) = none ∧
    ∀ m : AnnotationMap,
      (parseTraefikConfig (some m)).bind TraefikConfig.sticky
        = if m stickyKey = some "true" then some true else none := by
  refine ⟨by decide, by decide, by decide, by decide, by decide, ?_⟩
  intro m
  by_cases hs : m stickyKey = some "true"
  · simp [parseTraefikConfig, hs]
  · simp only [parseTraefikConfig, if_neg hs]
    split <;> simp

/-- C7 witness: the general sticky characterisation applied to the empty
annotation map. -/
theorem C7_sticky_asymmetry_witness :
    (parseTraefikConfig (some emptyAnn)).bind TraefikConfig.sticky
      = if emptyAnn stickyKey = some "true" then some true else none :=
  C7_sticky_asymmetry.2.2.2.2.2 emptyAnn

/-- C8: certResolver = "letsencrypt" emits both the certresolver key and the
companion router.tls = "true" flag; the decoder copies the certresolver
value as-is (so that field round-trips) and never reads the router.tls key:
decode is invariant under any assignment to that key. -/
theorem C8_certresolver_tls_companion :
    buildTraefikAnnotations (some { certResolver := some "letsencrypt" })
        (some emptyAnn) certResolverKey = some "letsencrypt" ∧
    buildTraefikAnnotations (some { certResolver := some "letsencrypt" })
        (some emptyAnn) tlsKey = some "true" ∧
    (parseTraefikConfig (some (buildTraefikAnnotations
        (some { certResolver := some "letsencrypt" })
        (some emptyAnn)))).bind TraefikConfig.certResolver
      = some "letsencrypt" ∧
    (∀ (m : AnnotationMap) (s : String), m certResolverKey = some s →
      s ≠ "" → (parseTraefikConfig (some m)).bind TraefikConfig.certResolver
        = some s) ∧
    ∀ (m : AnnotationMap) (v : String),
      parseTraefikConfig (some (annInsert m tlsKey v))
        = parseTraefikConfig (some m) := by
  refine ⟨by decide, by decide, by decide, ?_, ?_⟩
  · intro m s hm hs
    simp [parseTraefikConfig, hm, readTruthy, hs]
  · intro m v
    have e1 : annInsert m tlsKey v entryPointsKey = m entryPointsKey :=
      annInsert_ne _ _ _ _ (by decide)
    have e2 : annInsert m tlsKey v middlewaresKey = m middlewaresKey :=
      annInsert_ne _ _ _ _ (by decide)
    have e3 : annInsert m tlsKey v certResolverKey = m certResolverKey :=
      annInsert_ne _ _ _ _ (by decide)
    have e4 : annInsert m tlsKey v priorityKey = m priorityKey :=
      annInsert_ne _ _ _ _ (by decide)
    have e5 : annInsert m tlsKey v stickyKey = m stickyKey :=
      annInsert_ne _ _ _ _ (by decide)
    have e6 : annInsert m tlsKey v passHostHeaderKey
        = m passHostHeaderKey := annInsert_ne _ _ _ _ (by decide)
    simp only [parseTraefikConfig, e1, e2, e3, e4, e5, e6]

/-- C8 witness: the decode-copies-certresolver part applied to a concrete
one-entry map. -/
theorem C8_certresolver_tls_companion_witness :
    (parseTraefikConfig
        (some (annInsert emptyAnn certResolverKey "myresolver"))).bind
      TraefikConfig.certResolver = some "myresolver" :=
  C8_certresolver_tls_companion.2.2.2.1
    (annInsert emptyAnn certResolverKey "myresolver") "myresolver"
    (by decide) (by decide)

/-- C9 counterexample: the claim states the decoder leaves priority unset on
a non-numeric value, but decoding {"…router.priority": "abc"} yields a
present config whose priority field is set — to NaN (`parseInt("abc", 10)`),
not left unset. -/
theorem C9_counterexample_nan_priority :
    parseTraefikConfig (some (annInsert emptyAnn priorityKey "abc"))
      = some { priority := some JsNum.nan } ∧
    ({ priority := some JsNum.nan } : TraefikConfig).priority ≠ none := by
  decide

/-- C9 (amended): the decoder never raises, but it does not treat an
unparsable priority conservatively: whenever the priority annotation is
present and non-empty, the priority field is set to `parseInt(value, 10)`,
which is NaN for a non-numeric value such as "abc" — the field is set, the
config is present. -/
theorem C9_amended_nonnumeric_priority (m : AnnotationMap) (s : String)
    (hm : m priorityKey = some s) (hs : s ≠ "") :
    (parseTraefikConfig (some m)).bind TraefikConfig.priority
      = some (parseIntJS s) := by
  simp [parseTraefikConfig, hm, readTruthy, hs]

/-- C9 witness: the amended theorem applied to the map carrying "abc", whose
parse is NaN. -/
theorem C9_amended_nonnumeric_priority_witness :
    (parseTraefikConfig (some (annInsert emptyAnn priorityKey "abc"))).bind
        TraefikConfig.priority = some (parseIntJS "abc") ∧
    parseIntJS "abc" = JsNum.nan :=
  ⟨C9_amended_nonnumeric_priority _ "abc" (by decide) (by decide),
    by decide⟩

/-- C10: for each of the five truthiness-guarded Traefik keys, a key present
with the empty string decodes exactly as if the key were absent: removing
the key from the map does not change the decoder output. -/
theorem C10_empty_value_behaves_as_absent (m : AnnotationMap) (k : String)
    (hk : k ∈ [entryPointsKey, middlewaresKey, certResolverKey, priorityKey,
      passHostHeaderKey])
    (hv : m k = some "") :
    parseTraefikConfig (some m)
      = parseTraefikConfig (some (annErase m k)) := by
  have hk2 : k = entryPointsKey ∨ k = middlewaresKey ∨ k = certResolverKey
      ∨ k = priorityKey ∨ k = passHostHeaderKey := by simpa using hk
  have hself : annErase m k k = none := by simp [annErase]
  have hne : ∀ q, q ≠ k → annErase m k q = m q := by
    intro q hq
    simp [annErase, hq]
  rcases hk2 with rfl | rfl | rfl | rfl | rfl
  · simp [parseTraefikConfig, readTruthy, hv, hself,
      hne middlewaresKey (by decide), hne certResolverKey (by decide),
      hne priorityKey (by decide), hne stickyKey (by decide),
      hne passHostHeaderKey (by decide)]
  · simp [parseTraefikConfig, readTruthy, hv, hself,
      hne entryPointsKey (by decide), hne certResolverKey (by decide),
      hne priorityKey (by decide), hne stickyKey (by decide),
      hne passHostHeaderKey (by decide)]
  · simp [parseTraefikConfig, readTruthy, hv, hself,
      hne entryPointsKey (by decide), hne middlewaresKey (by decide),
      hne priorityKey (by decide), hne stickyKey (by decide),
      hne passHostHeaderKey (by decide)]
  · simp [parseTraefikConfig, readTruthy, hv, hself,
      hne entryPointsKey (by decide), hne middlewaresKey (by decide),
      hne certResolverKey (by decide), hne stickyKey (by decide),
      hne passHostHeaderKey (by decide)]
  · simp [parseTraefikConfig, readTruthy, hv, hself,
      hne entryPointsKey (by decide), hne middlewaresKey (by decide),
      hne certResolverKey (by decide), hne priorityKey (by decide),
      hne stickyKey (by decide)]

/-- C10 witness: the theorem applied to a map whose passhostheader entry is
the empty string. -/
theorem C10_empty_value_behaves_as_absent_witness :
    parseTraefikConfig (some (annInsert emptyAnn passHostHeaderKey ""))
      = parseTraefikConfig (some (annErase
          (annInsert emptyAnn passHostHeaderKey "") passHostHeaderKey)) :=
  C10_empty_value_behaves_as_absent _ passHostHeaderKey (by decide)
    (by decide)

end IngressCodec
